import Mathlib

/-!
Shallow embedding of the LifeMemoryTracker analytics module
(`src/analytics.py`, class `LifeAnalytics`) and of the persistence layer
(`src/models.py`, class `LifeMemoryManager`), together with theorems that
settle the specification claims about them.

Modelling conventions:
* Python ISO date strings are modelled as `Int` day numbers
  (`datetime.fromisoformat(a) - datetime.fromisoformat(b)).days = a - b`);
  timestamps are abstract `Int` instants.
* Calendar projections performed with `strftime` (`"%Y-W%U"`, `"%Y-%m"`,
  `"%A"`) and the `.hour` field are abstracted into an environment
  `PyEnv` of uninterpreted functions, as is the real square root used by
  `statistics.stdev`; `date.today()` is the environment field `today`.
* Python floats are modelled as `ℚ` (all arithmetic in the module is
  ratios of integers; `/` is Python true division).
* Python dictionaries built by the module are modelled as Lean
  structures; `defaultdict` accumulators are association lists that keep
  Python's insertion order.
* A Python `str` is kept as a Lean `String`; `str.lower` and substring
  membership (`w in text`) are implemented over `List Char`
  (ASCII lowering, which is what every keyword list here exercises).
* Exceptions are modelled with `Except PyErr`: `pyLt` raises `typeError`
  on a `str`/`int` comparison exactly as Python 3 does, and the attribute
  lookup of the nowhere-defined method `_analyze_time_patterns`
  (referenced at `analytics.py:25`) raises `attributeError`.
* `list.sort()` on day numbers is modelled with `List.insertionSort`
  (the sorted list of integers is unique, so the choice of stable sort
  algorithm is immaterial).
-/

/-- Python runtime errors that the embedded code can raise. -/
inductive PyErr : Type where
  | typeError : PyErr
  | attributeError : PyErr
deriving DecidableEq, Repr

/-- A Python value as far as the embedded comparisons need: `int` or `str`. -/
inductive PyVal : Type where
  | int : Int → PyVal
  | str : String → PyVal
deriving DecidableEq, Repr

/-- Lexicographic byte-wise comparison of char lists (Python `str < str`). -/
def charListLt : List Char → List Char → Bool
  | [], [] => false
  | [], _ :: _ => true
  | _ :: _, [] => false
  | a :: as, b :: bs => if a.toNat < b.toNat then true
      else if b.toNat < a.toNat then false else charListLt as bs

/-- Python 3 `<`: comparing `str` with `int` raises `TypeError`. -/
def pyLt : PyVal → PyVal → Except PyErr Bool
  | PyVal.int a, PyVal.int b => Except.ok (decide (a < b))
  | PyVal.str a, PyVal.str b => Except.ok (charListLt a.data b.data)
  | _, _ => Except.error PyErr.typeError

/-- ASCII lowering of one character (what `str.lower()` does on the ASCII
keywords this module works with). -/
def lowerChar (c : Char) : Char :=
  if 'A' ≤ c ∧ c ≤ 'Z' then Char.ofNat (c.toNat + 32) else c

/-- `text.lower()` as a character list. -/
def pyLower (s : String) : List Char := s.data.map lowerChar

/-- Python substring test `needle in hay`. -/
def containsSub (needle : List Char) : List Char → Bool
  | [] => needle.isEmpty
  | c :: rest => needle.isPrefixOf (c :: rest) || containsSub needle rest

/-- `word in text` for one keyword against an already-lowered text. -/
def hasWord (w : String) (t : List Char) : Bool := containsSub w.data t

/-- `any(word in text for word in words)`. -/
def anyWord (words : List String) (t : List Char) : Bool :=
  words.any (fun w => hasWord w t)

/-- `sum(1 for word in words if word in text)`. -/
def countWordHits (words : List String) (t : List Char) : Nat :=
  (words.filter (fun w => hasWord w t)).length

/-- `statistics.mean` over rationals (callers guarantee nonempty input). -/
def listMean (l : List ℚ) : ℚ := l.sum / (l.length : ℚ)

/-- Sample variance, the square of `statistics.stdev`
(callers guarantee at least two data points). -/
def listSampleVariance (l : List ℚ) : ℚ :=
  ((l.map (fun x => (x - listMean l) ^ 2)).sum) / ((l.length : ℚ) - 1)

/-- Python slice `l[-n:]`. -/
def takeLast {α : Type} (n : Nat) (l : List α) : List α := l.drop (l.length - n)

/-- `defaultdict(int)` increment `d[k] += 1`, keeping insertion order. -/
def bump {κ : Type} [BEq κ] (acc : List (κ × Nat)) (k : κ) : List (κ × Nat) :=
  if acc.any (fun p => p.1 == k) then
    acc.map (fun p => if p.1 == k then (p.1, p.2 + 1) else p)
  else acc ++ [(k, 1)]

/-- `defaultdict(list)` append `d[k].append(v)`, keeping insertion order. -/
def groupAppend {κ α : Type} [BEq κ] (acc : List (κ × List α)) (k : κ) (v : α) :
    List (κ × List α) :=
  if acc.any (fun p => p.1 == k) then
    acc.map (fun p => if p.1 == k then (p.1, p.2 ++ [v]) else p)
  else acc ++ [(k, [v])]

/-- Python `max(d, key=d.get)`: the first key holding the maximal count. -/
def argmaxFirst {κ : Type} : List (κ × Nat) → Option κ
  | [] => none
  | p :: rest => some ((rest.foldl (fun best q => if best.2 < q.2 then q else best) p).1)

/-- One journal event, as produced by `LifeMemoryManager.add_life_event`
(`models.py:90`): an ISO `date` (day number), an optional finer
`timestamp`, the free-text `entry` and a `type` tag. -/
structure Event : Type where
  entry : String
  date : Int
  timestamp : Option Int
  type : String
deriving DecidableEq, Repr

/-- One goal, as produced by `LifeMemoryManager.add_goal` (`models.py:110`). -/
structure Goal : Type where
  id : Int
  goal : String
  created_date : Option Int
  completed_date : Option Int
  target_date : Option Int
  status : String
  progress : Int
deriving DecidableEq, Repr

/-- A JSON value (used to model the raw persisted file for `load_memory`,
and the untyped `patterns` / `user_profile` / `warnings` sections). -/
inductive Json : Type where
  | null : Json
  | bool : Bool → Json
  | num : ℚ → Json
  | str : String → Json
  | arr : List Json → Json
  | obj : List (String × Json) → Json

/-- The in-memory snapshot handed to the analytics functions. -/
structure Memory : Type where
  life_events : List Event
  goals : List Goal
  warnings : List Json
  patterns : List (String × Json)
  user_profile : List (String × Json)

/-- Abstracted ambient environment: today's date, the `strftime`
projections, embedding of a date into a datetime instant, and the real
square root used by `statistics.stdev`. -/
structure PyEnv : Type where
  today : Int
  weekKey : Int → String
  monthKey : Int → String
  dayName : Int → String
  hourOf : Int → Int
  dtOfDate : Int → Int
  sqrtQ : ℚ → ℚ

/-- `sum(range(n))` as a rational. -/
def sumX (n : Nat) : ℚ := ((List.range n).map (fun (i : Nat) => (i : ℚ))).sum

/-- `sum(i*i for i in range(n))` as a rational. -/
def sumX2 (n : Nat) : ℚ :=
  ((List.range n).map (fun (i : Nat) => (i : ℚ) * (i : ℚ))).sum

/-- `sum(values)`. -/
def sumY (values : List ℚ) : ℚ := values.sum

/-- `sum(i * values[i] for i in range(n))`. -/
def sumXY (values : List ℚ) : ℚ :=
  ((List.range values.length).map (fun (i : Nat) => (i : ℚ) * values.getD i 0)).sum

/-- The least-squares slope denominator `n * sum_x2 - sum_x * sum_x` of
`_calculate_trend` (`analytics.py:242`). -/
def trendDenom (n : Nat) : ℚ := (n : ℚ) * sumX2 n - sumX n * sumX n

/-- `_calculate_trend` (`analytics.py:230`): closed-form least-squares slope
of the values against indices `0..n-1`, classified against `±0.1`. -/
def calculate_trend (values : List ℚ) : String :=
  if values.length < 2 then "insufficient_data"
  else
    let n := values.length
    let slope := ((n : ℚ) * sumXY values - sumX n * sumY values) / trendDenom n
    if slope > 1 / 10 then "improving"
    else if slope < -(1 / 10) then "declining"
    else "stable"

/-- Positive mood words of `_analyze_mood_trends` (`analytics.py:47`). -/
def positive_words : List String :=
  ["happy", "excited", "grateful", "accomplished", "successful",
   "motivated", "confident", "proud", "satisfied", "optimistic"]

/-- Negative mood words of `_analyze_mood_trends` (`analytics.py:48`). -/
def negative_words : List String :=
  ["sad", "frustrated", "angry", "stressed", "overwhelmed",
   "disappointed", "worried", "anxious", "tired", "discouraged"]

/-- One element of the `mood_data` list (`analytics.py:62`). -/
structure MoodPoint : Type where
  date : Int
  mood_score : Int
  positive_indicators : Nat
  negative_indicators : Nat
deriving DecidableEq, Repr

/-- The dictionary returned by `_analyze_mood_trends` (`analytics.py:74`). -/
structure MoodAnalysis : Type where
  daily_mood : List MoodPoint
  weekly_averages : List (String × ℚ)
  overall_trend : String
  mood_volatility : ℚ

/-- Mood score of one entry: positive keyword hits minus negative ones. -/
def moodScore (e : Event) : Int :=
  (countWordHits positive_words (pyLower e.entry) : Int) -
    (countWordHits negative_words (pyLower e.entry) : Int)

/-- The `weekly_mood` accumulator of `_analyze_mood_trends`: mood scores
grouped by `strftime("%Y-W%U")` of the event date, in insertion order. -/
def weeklyMood (env : PyEnv) (events : List Event) : List (String × List Int) :=
  events.foldl (fun acc e => groupAppend acc (env.weekKey e.date) (moodScore e)) []

/-- `_analyze_mood_trends` (`analytics.py:43`). -/
def analyze_mood_trends (env : PyEnv) (memory : Memory) : MoodAnalysis :=
  let events := memory.life_events
  let mood_data := events.map (fun e =>
    { date := e.date
      mood_score := moodScore e
      positive_indicators := countWordHits positive_words (pyLower e.entry)
      negative_indicators := countWordHits negative_words (pyLower e.entry) })
  let weekly_averages := (weeklyMood env events).map
    (fun p => (p.1, listMean (p.2.map (fun v => (v : ℚ)))))
  { daily_mood := takeLast 30 mood_data
    weekly_averages := takeLast 12 weekly_averages
    overall_trend := calculate_trend (weekly_averages.map (fun p => p.2))
    mood_volatility :=
      if 1 < weekly_averages.length then
        env.sqrtQ (listSampleVariance (weekly_averages.map (fun p => p.2)))
      else 0 }

/-- One element of the `overdue_goals` list (`analytics.py:279`). -/
structure OverdueGoal : Type where
  goal : String
  target_date : Int
  days_overdue : Int
deriving DecidableEq, Repr

/-- The statistics dictionary returned by `_analyze_goal_progress` on a
nonempty goal list (`analytics.py:99`). -/
structure GoalProgress : Type where
  total_goals : Nat
  completed_goals : Nat
  active_goals : Nat
  completion_rate : ℚ
  average_completion_time : ℚ
  goals_by_category : List (String × Nat)
  overdue_goals : List OverdueGoal

/-- Result of `_analyze_goal_progress`: either the
`{"message": ...}` dictionary or the statistics dictionary. -/
inductive GoalProgressResult : Type where
  | message : String → GoalProgressResult
  | stats : GoalProgress → GoalProgressResult

/-- The ternary expression on `analytics.py:103`:
`len(completed_goals) / len(goals) * 100 if goals else 0`. -/
def completionRate (goals : List Goal) : ℚ :=
  if goals.isEmpty then 0
  else ((goals.filter (fun g => g.status == "completed")).length : ℚ) /
    (goals.length : ℚ) * 100

/-- Goal category chosen by the keyword chain of `_categorize_goals`
(`analytics.py:255`). -/
def categorize (g : Goal) : String :=
  let t := pyLower g.goal
  if anyWord ["career", "job", "work", "professional"] t then "career"
  else if anyWord ["health", "fitness", "exercise", "diet"] t then "health"
  else if anyWord ["relationship", "family", "friend", "social"] t then "relationships"
  else if anyWord ["learn", "skill", "education", "course"] t then "learning"
  else "personal"

/-- `_categorize_goals` (`analytics.py:251`). -/
def categorize_goals (goals : List Goal) : List (String × Nat) :=
  goals.foldl (fun acc g => bump acc (categorize g)) []

/-- `_identify_overdue_goals` (`analytics.py:270`). -/
def identify_overdue_goals (today : Int) (active_goals : List Goal) :
    List OverdueGoal :=
  active_goals.filterMap (fun g =>
    match g.target_date with
    | none => none
    | some target =>
      if target < today then
        some { goal := g.goal, target_date := target,
               days_overdue := today - target }
      else none)

/-- `_analyze_goal_progress` (`analytics.py:81`). -/
def analyze_goal_progress (today : Int) (goals : List Goal) : GoalProgressResult :=
  if goals.isEmpty then GoalProgressResult.message "No goals found for analysis"
  else
    let completed_goals := goals.filter (fun g => g.status == "completed")
    let active_goals := goals.filter (fun g => g.status == "active")
    let completion_times := completed_goals.filterMap (fun g =>
      match g.created_date, g.completed_date with
      | some c, some d => some ((d - c : Int) : ℚ)
      | _, _ => none)
    GoalProgressResult.stats
      { total_goals := goals.length
        completed_goals := completed_goals.length
        active_goals := active_goals.length
        completion_rate := completionRate goals
        average_completion_time :=
          if completion_times.isEmpty then 0 else listMean completion_times
        goals_by_category := categorize_goals goals
        overdue_goals := identify_overdue_goals today active_goals }

/-- The instant used by `_analyze_activity_patterns`
(`event.get("timestamp", event["date"])`, `analytics.py:121`). -/
def eventInstant (env : PyEnv) (e : Event) : Int :=
  match e.timestamp with
  | some t => t
  | none => env.dtOfDate e.date

/-- The dictionary returned by `_calculate_entry_frequency` on a nonempty
event list (`analytics.py:305`); the empty-list case returns `{}`,
modelled as `none` at the use site. -/
structure EntryFrequency : Type where
  days_since_last : Int
  average_gap : ℚ
  frequency_score : ℚ

/-- The event dates parsed and sorted ascending (`dates.sort()`). -/
def sortedDates (events : List Event) : List Int :=
  List.insertionSort (fun a b => a ≤ b) (events.map (fun e => e.date))

/-- The consecutive-gap list `[(dates[i+1]-dates[i]).days for i ...]`. -/
def dateGaps (events : List Event) : List ℚ :=
  (List.zipWith (fun b a => ((b - a : Int) : ℚ))
    (sortedDates events).tail (sortedDates events))

/-- `_calculate_entry_frequency` (`analytics.py:287`). -/
def calculate_entry_frequency (today : Int) (events : List Event) :
    Option EntryFrequency :=
  match events.getLast? with
  | none => none
  | some last =>
    let avg_gap := if 1 < events.length then listMean (dateGaps events) else 0
    some { days_since_last := today - last.date
           average_gap := avg_gap
           frequency_score := max 0 (100 - avg_gap * 5) }

/-- The statistics dictionary returned by `_analyze_activity_patterns` on a
nonempty event list (`analytics.py:128`). -/
structure ActivityPatterns : Type where
  activity_by_day : List (String × Nat)
  activity_by_hour : List (Int × Nat)
  most_active_day : Option String
  peak_hour : Option Int
  entry_frequency : Option EntryFrequency

/-- Result of `_analyze_activity_patterns`: either the
`{"message": ...}` dictionary or the statistics dictionary. -/
inductive ActivityResult : Type where
  | message : String → ActivityResult
  | stats : ActivityPatterns → ActivityResult

/-- `_analyze_activity_patterns` (`analytics.py:109`). -/
def analyze_activity_patterns (env : PyEnv) (memory : Memory) : ActivityResult :=
  let events := memory.life_events
  if events.isEmpty then ActivityResult.message "No activity data available"
  else
    let day_activity := events.foldl
      (fun acc e => bump acc (env.dayName (eventInstant env e))) []
    let hour_activity := events.foldl
      (fun acc e => bump acc (env.hourOf (eventInstant env e))) []
    ActivityResult.stats
      { activity_by_day := day_activity
        activity_by_hour := hour_activity
        most_active_day := argmaxFirst day_activity
        peak_hour := argmaxFirst hour_activity
        entry_frequency := calculate_entry_frequency env.today events }

/-- Challenge words of `_calculate_resilience_score` (`analytics.py:316`). -/
def challenge_words : List String :=
  ["problem", "difficult", "struggle", "setback", "failed"]

/-- Recovery words of `_calculate_resilience_score` (`analytics.py:317`). -/
def recovery_words : List String :=
  ["solved", "overcame", "better", "improved", "learned"]

/-- Whether the entry at index `j` exists and mentions a recovery word. -/
def recoveryAt (events : List Event) (j : Nat) : Bool :=
  match events.get? j with
  | none => false
  | some e => anyWord recovery_words (pyLower e.entry)

/-- The inner loop of `_calculate_resilience_score` (`analytics.py:327`):
`for j in range(i+1, min(i+4, len(life_events)))`, succeeding as soon as a
recovery word is found. -/
def recoveryInWindow (events : List Event) (i : Nat) : Bool :=
  (List.range' (i + 1) (min (i + 4) events.length - (i + 1))).any
    (fun j => recoveryAt events j)

/-- `_calculate_resilience_score` (`analytics.py:311`): the outer loop is
`for i, event in enumerate(life_events)`, counting challenge entries and,
among those, the ones followed within three entries by a recovery word
(the inner `break` makes at most one increment per challenge). -/
def calculate_resilience_score (events : List Event) : ℚ :=
  if events.length < 5 then 50
  else
    let total_challenges := (events.enum.filter (fun p =>
      anyWord challenge_words (pyLower p.2.entry))).length
    let resilience_events := (events.enum.filter (fun p =>
      anyWord challenge_words (pyLower p.2.entry) &&
        recoveryInWindow events p.1)).length
    if total_challenges = 0 then 75
    else ((resilience_events : ℚ) / (total_challenges : ℚ)) * 100

/-- Learning words of `_calculate_learning_frequency` (`analytics.py:340`). -/
def learning_words : List String :=
  ["learned", "discovered", "realized", "understood", "insight", "knowledge"]

/-- The denominator `min(30, len(life_events))` of
`_calculate_learning_frequency` (`analytics.py:348`). -/
def learningDenom (events : List Event) : ℚ := ((min 30 events.length : Nat) : ℚ)

/-- `_calculate_learning_frequency` (`analytics.py:338`). -/
def calculate_learning_frequency (events : List Event) : ℚ :=
  if events.isEmpty then 0
  else
    let learning_count := ((takeLast 30 events).filter
      (fun e => anyWord learning_words (pyLower e.entry))).length
    ((learning_count : ℚ) / learningDenom events) * 100

/-- The `skill_words` table of `_identify_skill_areas` (`analytics.py:352`). -/
def skill_words : List (String × List String) :=
  [("technical", ["programming", "coding", "software", "computer", "technical", "digital"]),
   ("communication", ["presentation", "speaking", "writing", "communication", "meeting"]),
   ("leadership", ["leadership", "management", "team", "leading", "mentoring"]),
   ("creative", ["design", "creative", "art", "writing", "innovation"]),
   ("analytical", ["analysis", "data", "research", "problem-solving", "critical thinking"])]

/-- `_identify_skill_areas` (`analytics.py:350`). -/
def identify_skill_areas (events : List Event) : List (String × Nat) :=
  (takeLast 50 events).foldl (fun acc e =>
    skill_words.foldl (fun acc2 cat =>
      if anyWord cat.2 (pyLower e.entry) then bump acc2 cat.1 else acc2) acc) []

/-- Growth keywords of `_calculate_growth_metrics` (`analytics.py:141`). -/
def growth_keywords : List String :=
  ["learned", "improved", "developed", "achieved", "mastered",
   "overcame", "progress", "growth", "success"]

/-- Challenge keywords of `_calculate_growth_metrics` (`analytics.py:142`). -/
def challenge_keywords : List String :=
  ["challenge", "difficult", "struggle", "problem", "obstacle", "setback"]

/-- The dictionary returned by `_calculate_growth_metrics` (`analytics.py:152`). -/
structure GrowthMetrics : Type where
  growth_indicators : Nat
  challenge_mentions : Nat
  growth_to_challenge_ratio : ℚ
  resilience_score : ℚ
  learning_frequency : ℚ
  skill_development_areas : List (String × Nat)

/-- `_calculate_growth_metrics` (`analytics.py:136`). -/
def calculate_growth_metrics (memory : Memory) : GrowthMetrics :=
  let events := memory.life_events
  let growth_count := ((takeLast 30 events).map
    (fun e => countWordHits growth_keywords (pyLower e.entry))).sum
  let challenge_count := ((takeLast 30 events).map
    (fun e => countWordHits challenge_keywords (pyLower e.entry))).sum
  { growth_indicators := growth_count
    challenge_mentions := challenge_count
    growth_to_challenge_ratio := (growth_count : ℚ) / ((max challenge_count 1 : Nat) : ℚ)
    resilience_score := calculate_resilience_score events
    learning_frequency := calculate_learning_frequency events
    skill_development_areas := identify_skill_areas events }

/-- One recommendation dictionary (`analytics.py:168`). -/
structure Recommendation : Type where
  type : String
  priority : String
  recommendation : String
deriving DecidableEq, Repr

/-- The mood recommendation appended on `analytics.py:168`. -/
def moodRecommendation : Recommendation :=
  { type := "mood", priority := "high",
    recommendation := "Your mood trend shows decline. Consider scheduling activities that typically boost your mood." }

/-- The goals recommendation appended on `analytics.py:177`. -/
def goalsRecommendation : Recommendation :=
  { type := "goals", priority := "medium",
    recommendation := "Your goal completion rate is low. Consider breaking goals into smaller, more manageable tasks." }

/-- The engagement recommendation appended on `analytics.py:187`. -/
def engagementRecommendation : Recommendation :=
  { type := "engagement", priority := "medium",
    recommendation := "You haven't logged an entry in a while. Regular reflection helps maintain progress." }

/-- `goal_analysis.get("completion_rate", 0)` (`analytics.py:176`). -/
def completionRateOf : GoalProgressResult → ℚ
  | GoalProgressResult.message _ => 0
  | GoalProgressResult.stats s => s.completion_rate

/-- `activity_analysis.get("entry_frequency", {}).get("days_since_last", 0)`
(`analytics.py:185`). -/
def daysSinceLastOf : ActivityResult → Int
  | ActivityResult.message _ => 0
  | ActivityResult.stats a =>
    match a.entry_frequency with
    | none => 0
    | some ef => ef.days_since_last

/-- `_generate_data_driven_recommendations` (`analytics.py:161`).  The first
rule evaluates `mood_analysis.get("overall_trend", 0) < 0`; `overall_trend`
is always one of the strings produced by `_calculate_trend`, so this is a
Python 3 `str < int` comparison. -/
def generate_data_driven_recommendations (env : PyEnv) (memory : Memory) :
    Except PyErr (List Recommendation) := do
  let mood_analysis := analyze_mood_trends env memory
  let moodDeclining ← pyLt (PyVal.str mood_analysis.overall_trend) (PyVal.int 0)
  let recs := if moodDeclining then [moodRecommendation] else []
  let goal_analysis := analyze_goal_progress env.today memory.goals
  let recs := if completionRateOf goal_analysis < 50 then
      recs ++ [goalsRecommendation] else recs
  let activity_analysis := analyze_activity_patterns env memory
  let recs := if 7 < daysSinceLastOf activity_analysis then
      recs ++ [engagementRecommendation] else recs
  return recs

/-- The summary dictionary returned by `_generate_summary_stats`
(`analytics.py:34`). -/
structure SummaryStats : Type where
  total_entries : Nat
  total_goals : Nat
  active_goals : Nat
  days_tracked : Nat
  average_entries_per_week : ℚ
  consistency_score : ℚ
deriving DecidableEq, Repr

/-- `_calculate_tracking_days` (`analytics.py:195`): distinct entry dates. -/
def calculate_tracking_days (events : List Event) : Nat :=
  (events.map (fun e => e.date)).dedup.length

/-- The guarded denominator `max(weeks, 1)` of `_calculate_weekly_average`
(`analytics.py:212`), with `weeks = (last_date - first_date).days / 7`. -/
def weeklyAvgDenom (first last : Int) : ℚ := max (((last - first : Int) : ℚ) / 7) 1

/-- `_calculate_weekly_average` (`analytics.py:203`): entry count divided by
the weeks between the first and last event records. -/
def calculate_weekly_average (events : List Event) : ℚ :=
  match events with
  | [] => 0
  | e :: rest =>
    ((events.length : ℚ)) / weeklyAvgDenom e.date (rest.getLastD e).date

/-- The average gap in days between date-sorted consecutive entries
(`statistics.mean(gaps)`, `analytics.py:224`). -/
def avgGapDays (events : List Event) : ℚ := listMean (dateGaps events)

/-- `_calculate_consistency_score` (`analytics.py:214`). -/
def calculate_consistency_score (events : List Event) : ℚ :=
  if events.length < 7 then 0
  else min 100 (max 0 (100 - avgGapDays events * 10))

/-- `_generate_summary_stats` (`analytics.py:29`). -/
def generate_summary_stats (memory : Memory) : SummaryStats :=
  { total_entries := memory.life_events.length
    total_goals := memory.goals.length
    active_goals := (memory.goals.filter (fun g => g.status == "active")).length
    days_tracked := calculate_tracking_days memory.life_events
    average_entries_per_week := calculate_weekly_average memory.life_events
    consistency_score := calculate_consistency_score memory.life_events }

/-- Achievement words of `_track_achievements` (`analytics.py:373`). -/
def achievement_words : List String :=
  ["achieved", "accomplished", "completed", "finished",
   "succeeded", "won", "graduated", "promoted"]

/-- Whether an event counts as an achievement: its lower-cased entry
contains one of the achievement keywords (`analytics.py:378`). -/
def isAchievement (e : Event) : Bool := anyWord achievement_words (pyLower e.entry)

/-- One element of the `achievements` list (`analytics.py:379`). -/
structure AchievementItem : Type where
  date : Int
  achievement : String
  type : String
deriving DecidableEq, Repr

/-- The dictionary returned by `_track_achievements` (`analytics.py:391`). -/
structure AchievementTracking : Type where
  total_achievements : Nat
  recent_achievements : List AchievementItem
  monthly_counts : List (String × Nat)
  achievement_rate : ℚ

/-- `_track_achievements` (`analytics.py:370`). -/
def track_achievements (env : PyEnv) (memory : Memory) : AchievementTracking :=
  let events := memory.life_events
  let achievements := (events.filter isAchievement).map (fun e =>
    { date := e.date, achievement := e.entry, type := e.type : AchievementItem })
  { total_achievements := achievements.length
    recent_achievements := takeLast 10 achievements
    monthly_counts := achievements.foldl
      (fun acc a => bump acc (env.monthKey a.date)) []
    achievement_rate :=
      (achievements.length : ℚ) / ((max events.length 1 : Nat) : ℚ) * 100 }

/-- The dictionary literal built by `generate_comprehensive_report`
(`analytics.py:18`). -/
structure ComprehensiveReport : Type where
  summary : SummaryStats
  mood_analysis : MoodAnalysis
  goal_progress : GoalProgressResult
  activity_patterns : ActivityResult
  growth_metrics : GrowthMetrics
  recommendations : List Recommendation
  time_analysis : Json
  achievement_tracking : AchievementTracking

/-- `self._analyze_time_patterns(memory)` is referenced on `analytics.py:25`
but no method of that name is defined anywhere in the class, so the
attribute lookup raises `AttributeError`. -/
def analyze_time_patterns : Except PyErr Json := Except.error PyErr.attributeError

/-- `generate_comprehensive_report` (`analytics.py:14`): the dictionary
values are evaluated in the literal's order, so the first exception wins. -/
def generate_comprehensive_report (env : PyEnv) (memory : Memory) :
    Except PyErr ComprehensiveReport := do
  let summary := generate_summary_stats memory
  let mood := analyze_mood_trends env memory
  let goal_progress := analyze_goal_progress env.today memory.goals
  let activity := analyze_activity_patterns env memory
  let growth := calculate_growth_metrics memory
  let recommendations ← generate_data_driven_recommendations env memory
  let time_analysis ← analyze_time_patterns
  let achievement_tracking := track_achievements env memory
  return { summary := summary
           mood_analysis := mood
           goal_progress := goal_progress
           activity_patterns := activity
           growth_metrics := growth
           recommendations := recommendations
           time_analysis := time_analysis
           achievement_tracking := achievement_tracking }

/-- The event filter of `generate_weekly_report` (`analytics.py:404`):
events whose date satisfies `date >= today - 7`. -/
def weeklyRecentEvents (today : Int) (events : List Event) : List Event :=
  events.filter (fun e => decide (today - 7 ≤ e.date))

/-- Positive words of `_analyze_weekly_mood` (`analytics.py:425`). -/
def weekly_positive_words : List String :=
  ["happy", "excited", "accomplished", "grateful", "successful"]

/-- Negative words of `_analyze_weekly_mood` (`analytics.py:426`). -/
def weekly_negative_words : List String :=
  ["stressed", "frustrated", "tired", "overwhelmed", "disappointed"]

/-- `_analyze_weekly_mood` (`analytics.py:420`). -/
def analyze_weekly_mood (recent_events : List Event) : String :=
  if recent_events.isEmpty then "No entries this week"
  else
    let positive_count := (recent_events.map
      (fun e => countWordHits weekly_positive_words (pyLower e.entry))).sum
    let negative_count := (recent_events.map
      (fun e => countWordHits weekly_negative_words (pyLower e.entry))).sum
    if positive_count > negative_count then "Predominantly positive"
    else if negative_count > positive_count then "Some challenges noted"
    else "Balanced week"

/-- `_extract_weekly_achievements` (`analytics.py:443`). -/
def extract_weekly_achievements (recent_events : List Event) : List String :=
  ((recent_events.filter (fun e =>
    anyWord ["achieved", "completed", "finished", "accomplished", "succeeded"]
      (pyLower e.entry))).map (fun e => e.entry)).take 5

/-- `_extract_weekly_challenges` (`analytics.py:455`). -/
def extract_weekly_challenges (recent_events : List Event) : List String :=
  ((recent_events.filter (fun e =>
    anyWord ["difficult", "challenging", "struggle", "problem", "obstacle"]
      (pyLower e.entry))).map (fun e => e.entry)).take 3

/-- Python `str.split()`: split on whitespace runs, dropping empty pieces. -/
def splitWs (l : List Char) : List (List Char) :=
  (l.splitOnP (fun c => c.isWhitespace)).filter (fun w => ¬ w.isEmpty)

/-- `_identify_goals_mentioned` (`analytics.py:467`): a goal is mentioned
when some recent entry contains one of the first three words of the
lower-cased goal text. -/
def identify_goals_mentioned (recent_events : List Event) (goals : List Goal) :
    List String :=
  (goals.filter (fun g =>
    let goal_keywords := (splitWs (pyLower g.goal)).take 3
    recent_events.any (fun e =>
      goal_keywords.any (fun kw => containsSub kw (pyLower e.entry))))).map
    (fun g => g.goal)

/-- `_suggest_next_week_focus` (`analytics.py:481`). -/
def suggest_next_week_focus (recent_events : List Event) (memory : Memory) :
    List String :=
  let s1 : List String :=
    if recent_events.length < 3 then ["Increase daily reflection consistency"] else []
  let active_goals := memory.goals.filter (fun g => g.status == "active")
  let mentioned_goals := identify_goals_mentioned recent_events memory.goals
  let unmentioned_goals := (active_goals.filter
    (fun g => ¬ mentioned_goals.contains g.goal)).map (fun g => g.goal)
  let s2 := match unmentioned_goals with
    | [] => s1
    | g :: _ => s1 ++ ["Work on neglected goal: " ++ g]
  let repeated_challenges := recent_events.filter (fun e =>
    anyWord ["difficult", "challenging", "struggle"] (pyLower e.entry))
  let s3 := if 2 < repeated_challenges.length then
    s2 ++ ["Address recurring challenges with specific action plans"] else s2
  if s3.isEmpty then ["Continue current positive momentum"] else s3.take 3

/-- The dictionary returned by `generate_weekly_report` (`analytics.py:409`);
`date_range` keeps the pair of dates that the f-string renders. -/
structure WeeklyReport : Type where
  period : String
  date_range : Int × Int
  entries_this_week : Nat
  mood_summary : String
  achievements : List String
  challenges : List String
  goals_worked_on : List String
  next_week_focus : List String

/-- `generate_weekly_report` (`analytics.py:398`). -/
def generate_weekly_report (env : PyEnv) (memory : Memory) : WeeklyReport :=
  let week_ago := env.today - 7
  let recent_events := weeklyRecentEvents env.today memory.life_events
  { period := "Weekly Report"
    date_range := (week_ago, env.today)
    entries_this_week := recent_events.length
    mood_summary := analyze_weekly_mood recent_events
    achievements := extract_weekly_achievements recent_events
    challenges := extract_weekly_challenges recent_events
    goals_worked_on := identify_goals_mentioned recent_events memory.goals
    next_week_focus := suggest_next_week_focus recent_events memory }

/-- The five top-level keys of `LifeMemoryManager.default_structure`
(`models.py:52`), in declaration order. -/
def requiredKeys : List String :=
  ["life_events", "goals", "warnings", "patterns", "user_profile"]

/-- `LifeMemoryManager.default_structure` (`models.py:52`). -/
def default_structure : List (String × Json) :=
  [("life_events", Json.arr []),
   ("goals", Json.arr []),
   ("warnings", Json.arr []),
   ("patterns", Json.obj []),
   ("user_profile", Json.obj
     [("name", Json.str ""),
      ("preferences", Json.obj []),
      ("coaching_style", Json.str "supportive")])]

/-- Dictionary key membership `key in data`. -/
def containsKey (kvs : List (String × Json)) (k : String) : Bool :=
  kvs.any (fun p => p.1 == k)

/-- The repair loop of `load_memory` (`models.py:71`): every default key
missing from the parsed object is appended with its default value. -/
def fillDefaults (kvs : List (String × Json)) : List (String × Json) :=
  kvs ++ default_structure.filter (fun p => ¬ containsKey kvs p.1)

/-- Python `"key" == element` for a JSON list element: equal only to the
identical string (`str.__eq__` against any other type is `False`). -/
def jsonEqStr (k : String) : Json → Bool
  | Json.str s => s == k
  | _ => false

/-- What the disk yields to `load_memory`: no file, an `IOError` while
opening or reading, a `json.JSONDecodeError`, or a parsed JSON document. -/
inductive FileState : Type where
  | missing : FileState
  | ioError : FileState
  | parseError : FileState
  | content : Json → FileState

/-- `LifeMemoryManager.load_memory` (`models.py:64`).  A missing file falls
through to the default; `IOError` and `JSONDecodeError` are caught and fall
through to the default; on a parsed document the repair loop
`for key in self.default_structure: if key not in data: data[key] = ...`
runs with Python dynamic-typing semantics: on a dict it fills the missing
keys, on a list `key not in data` is element membership and `data[key] = ...`
raises `TypeError`, on a string `key not in data` is a substring test and
item assignment raises `TypeError`, and on any other value `in` itself
raises `TypeError`. -/
def load_memory (fs : FileState) : Except PyErr Json :=
  match fs with
  | FileState.missing => Except.ok (Json.obj default_structure)
  | FileState.ioError => Except.ok (Json.obj default_structure)
  | FileState.parseError => Except.ok (Json.obj default_structure)
  | FileState.content j =>
    match j with
    | Json.obj kvs => Except.ok (Json.obj (fillDefaults kvs))
    | Json.arr l =>
      if requiredKeys.all (fun k => l.any (jsonEqStr k)) then Except.ok (Json.arr l)
      else Except.error PyErr.typeError
    | Json.str s =>
      if requiredKeys.all (fun k => containsSub k.data s.data) then
        Except.ok (Json.str s)
      else Except.error PyErr.typeError
    | _ => Except.error PyErr.typeError

/-- A concrete environment for counterexamples and witnesses:
today is day 10 and the calendar projections are constant. -/
def env0 : PyEnv :=
  { today := 10, weekKey := fun _ => "w", monthKey := fun _ => "m",
    dayName := fun _ => "Monday", hourOf := fun _ => 0,
    dtOfDate := fun d => d, sqrtQ := fun _ => 0 }

/-- An event with the given entry text, dated day 0. -/
def mkEvent (s : String) : Event := { entry := s, date := 0, timestamp := none, type := "general" }

/-- The empty snapshot: no events, no goals, no warnings, no patterns. -/
def emptyMemory : Memory :=
  { life_events := [], goals := [], warnings := [], patterns := [], user_profile := [] }

/-- C1: the recommendations builder never gets to evaluate its three rules.
Its first rule runs `mood_analysis.get("overall_trend", 0) < 0`, and
`overall_trend` is always one of the strings produced by
`_calculate_trend`, so Python 3 raises `TypeError` on the `str < int`
comparison for every snapshot; no recommendation list is ever returned,
hence the claimed fixed-order three-rule evaluation never happens. -/
theorem c1_recommendations_always_raise (env : PyEnv) (memory : Memory) :
    generate_data_driven_recommendations env memory = Except.error PyErr.typeError := rfl

/-- C2: on the empty snapshot every individual section of the
comprehensive report that is evaluated before the recommendations section
does hold its documented zero/empty/neutral default, and the weekly report
returns normally with its defaults; but `generate_comprehensive_report`
itself raises `TypeError` inside `_generate_data_driven_recommendations`
instead of returning, so the claimed never-raises contract is broken by
the code. -/
theorem c2_empty_snapshot_report_raises (env : PyEnv) :
    generate_summary_stats emptyMemory =
      { total_entries := 0, total_goals := 0, active_goals := 0,
        days_tracked := 0, average_entries_per_week := 0,
        consistency_score := 0 } ∧
    (analyze_mood_trends env emptyMemory).overall_trend = "insufficient_data" ∧
    (analyze_mood_trends env emptyMemory).mood_volatility = 0 ∧
    (analyze_mood_trends env emptyMemory).daily_mood = [] ∧
    (analyze_mood_trends env emptyMemory).weekly_averages = [] ∧
    analyze_goal_progress env.today emptyMemory.goals =
      GoalProgressResult.message "No goals found for analysis" ∧
    analyze_activity_patterns env emptyMemory =
      ActivityResult.message "No activity data available" ∧
    (generate_weekly_report env emptyMemory).entries_this_week = 0 ∧
    (generate_weekly_report env emptyMemory).mood_summary = "No entries this week" ∧
    (generate_weekly_report env emptyMemory).achievements = [] ∧
    (generate_weekly_report env emptyMemory).challenges = [] ∧
    (generate_weekly_report env emptyMemory).goals_worked_on = [] ∧
    (generate_weekly_report env emptyMemory).next_week_focus =
      ["Increase daily reflection consistency"] ∧
    generate_comprehensive_report env emptyMemory = Except.error PyErr.typeError :=
  ⟨rfl, rfl, rfl, rfl, rfl, rfl, rfl, rfl, rfl, rfl, rfl, rfl, rfl, rfl⟩

/-- Scanning indices `s..s+k-1` for a recovery entry is the same as
scanning the sublist `(drop s).take k`. -/
theorem window_any (events : List Event) (s k : Nat) :
    (List.range' s k).any (fun j => recoveryAt events j) =
      ((events.drop s).take k).any
        (fun e => anyWord recovery_words (pyLower e.entry)) := by
  induction k generalizing s with
  | zero => simp
  | succ k ih =>
    rw [List.range'_succ, List.any_cons]
    cases h : events[s]? with
    | none =>
      have hlen : events.length ≤ s := List.getElem?_eq_none_iff.mp h
      have h0 : recoveryAt events s = false := by
        simp [recoveryAt, List.get?_eq_getElem?, h]
      have hdrop : events.drop s = [] := List.drop_eq_nil_of_le hlen
      have hdrop' : events.drop (s + 1) = [] :=
        List.drop_eq_nil_of_le (le_trans hlen (Nat.le_succ s))
      rw [h0, ih (s + 1), hdrop, hdrop']
      simp
    | some e =>
      have hlt : s < events.length := by
        by_contra hc
        rw [List.getElem?_eq_none (le_of_not_lt hc)] at h
        exact Option.noConfusion h
      have he : events[s] = e := by
        rw [List.getElem?_eq_getElem hlt] at h
        exact Option.some.inj h
      have h0 : recoveryAt events s = anyWord recovery_words (pyLower e.entry) := by
        simp [recoveryAt, List.get?_eq_getElem?, h]
      rw [h0, ih (s + 1), List.drop_eq_getElem_cons hlt, List.take_succ_cons,
        List.any_cons, he]

/-- The code's window bound `min(i+4, len) - (i+1)` takes the same slice
as simply taking the next three entries. -/
theorem window_take_three (events : List Event) (p : Event → Bool) (i : Nat) :
    ((events.drop (i + 1)).take (min (i + 4) events.length - (i + 1))).any p =
      ((events.drop (i + 1)).take 3).any p := by
  rcases le_or_lt (i + 4) events.length with h | h
  · rw [min_eq_left h, show i + 4 - (i + 1) = 3 from by omega]
  · rw [min_eq_right (le_of_lt h),
      List.take_of_length_le (le_of_eq (List.length_drop _ _)),
      List.take_of_length_le (by rw [List.length_drop]; omega)]

/-- The inner recovery scan equals an "any recovery word within the next
up-to-three entries" test. -/
theorem recoveryInWindow_eq (events : List Event) (i : Nat) :
    recoveryInWindow events i =
      ((events.drop (i + 1)).take 3).any
        (fun e => anyWord recovery_words (pyLower e.entry)) := by
  rw [recoveryInWindow, window_any, window_take_three]

/-- C3 (amended): the resilience score counts every event whose entry
contains a challenge word, counts it as recovered when any of the next
up-to-3 events contains a recovery word, and returns
`recovered / challenges * 100`, defaulting to 50 for fewer than 5 events
and to 75 when no challenge word occurs; the two-event example falls under
the fewer-than-5 default and scores 50, not 100. -/
theorem c3_resilience_score (events : List Event) :
    (calculate_resilience_score events =
      if events.length < 5 then 50
      else
        let total := events.enum.countP
          (fun p => anyWord challenge_words (pyLower p.2.entry))
        let recovered := events.enum.countP (fun p =>
          anyWord challenge_words (pyLower p.2.entry) &&
            ((events.drop (p.1 + 1)).take 3).any
              (fun e => anyWord recovery_words (pyLower e.entry)))
        if total = 0 then 75 else (recovered : ℚ) / (total : ℚ) * 100) ∧
    calculate_resilience_score
      [mkEvent "I hit a problem", mkEvent "but I overcame it"] = 50 := by
  constructor
  · simp only [calculate_resilience_score, recoveryInWindow_eq,
      List.countP_eq_length_filter]
  · rfl

/-- C3 counterexample: the claim asserts the two-event list
`[{entry: "I hit a problem"}, {entry: "but I overcame it"}]` scores 100,
but the code's fewer-than-5-events default returns 50. -/
theorem c3_counterexample :
    calculate_resilience_score
      [mkEvent "I hit a problem", mkEvent "but I overcame it"] = 50 ∧
    (50 : ℚ) ≠ 100 := ⟨rfl, by norm_num⟩

/-- An event dated day `d` with fixed text. -/
def dayEvent (d : Int) : Event :=
  { entry := "entry", date := d, timestamp := none, type := "general" }

/-- Seven events a day apart: average gap 1. -/
def gapOneWeek : List Event :=
  [dayEvent 0, dayEvent 1, dayEvent 2, dayEvent 3, dayEvent 4, dayEvent 5, dayEvent 6]

/-- Seven events two days apart: average gap 2. -/
def gapTwoWeek : List Event :=
  [dayEvent 0, dayEvent 2, dayEvent 4, dayEvent 6, dayEvent 8, dayEvent 10, dayEvent 12]

/-- C4 (amended): for every event list with at least 7 events the
consistency score is `clamp(0, 100, 100 − 10 × average gap)`; for fewer
than 7 events — not just for a single event — the code returns the
sentinel 0; the score always lies in [0, 100] and is non-increasing in
the average gap (among lists of at least 7 events). -/
theorem c4_consistency_score :
    (∀ events : List Event,
      calculate_consistency_score events =
        if events.length < 7 then 0
        else min 100 (max 0 (100 - 10 * avgGapDays events))) ∧
    (∀ events : List Event, 0 ≤ calculate_consistency_score events ∧
      calculate_consistency_score events ≤ 100) ∧
    (∀ l1 l2 : List Event, 7 ≤ l1.length → 7 ≤ l2.length →
      avgGapDays l1 ≤ avgGapDays l2 →
      calculate_consistency_score l2 ≤ calculate_consistency_score l1) := by
  refine ⟨fun events => ?_, fun events => ?_, fun l1 l2 h1 h2 hg => ?_⟩
  · rw [calculate_consistency_score]
    split_ifs with h
    · rfl
    · rw [mul_comm]
  · rw [calculate_consistency_score]
    split_ifs with h
    · exact ⟨le_refl 0, by norm_num⟩
    · exact ⟨le_min (by norm_num) (le_max_left 0 _), min_le_left _ _⟩
  · rw [calculate_consistency_score, calculate_consistency_score,
      if_neg (not_lt.mpr h1), if_neg (not_lt.mpr h2)]
    exact min_le_min le_rfl (max_le_max le_rfl (by linarith))

/-- C4 witness: the monotonicity part of `c4_consistency_score` applied to
two concrete 7-entry journals, with gaps 1 and 2 respectively. -/
theorem c4_witness :
    calculate_consistency_score gapTwoWeek ≤ calculate_consistency_score gapOneWeek :=
  c4_consistency_score.2.2 gapOneWeek gapTwoWeek (by decide) (by decide)
    (by norm_num [gapOneWeek, gapTwoWeek, dayEvent, avgGapDays, dateGaps,
      sortedDates, listMean, List.insertionSort, List.orderedInsert])

/-- C4 counterexample: a two-event list (both entries the same day) has
average gap 0, so the claimed clamp formula gives 100, but the code
returns 0 because it bails out below 7 events. -/
theorem c4_counterexample :
    calculate_consistency_score [mkEvent "a", mkEvent "b"] = 0 ∧
    min 100 (max 0 (100 - 10 * avgGapDays [mkEvent "a", mkEvent "b"])) = (100 : ℚ) := by
  refine ⟨rfl, ?_⟩
  norm_num [avgGapDays, dateGaps, sortedDates, listMean, mkEvent,
    List.insertionSort, List.orderedInsert]

/-- A snapshot holding only the given events. -/
def eventsOnly (events : List Event) : Memory :=
  { life_events := events, goals := [], warnings := [], patterns := [],
    user_profile := [] }

/-- C5 (amended): the weekly report keeps exactly the events dated on or
after `today - 7` — the boundary is inclusive, so an event dated exactly 7
days before today IS included — and the entry count, mood label,
achievement list and challenge list depend only on the kept events. -/
theorem c5_weekly_window :
    (∀ (today : Int) (events : List Event) (e : Event),
      e ∈ weeklyRecentEvents today events ↔ e ∈ events ∧ today - 7 ≤ e.date) ∧
    (∀ (env : PyEnv) (m1 m2 : Memory),
      weeklyRecentEvents env.today m1.life_events =
        weeklyRecentEvents env.today m2.life_events →
      (generate_weekly_report env m1).entries_this_week =
          (generate_weekly_report env m2).entries_this_week ∧
        (generate_weekly_report env m1).mood_summary =
          (generate_weekly_report env m2).mood_summary ∧
        (generate_weekly_report env m1).achievements =
          (generate_weekly_report env m2).achievements ∧
        (generate_weekly_report env m1).challenges =
          (generate_weekly_report env m2).challenges) := by
  constructor
  · intro today events e
    simp [weeklyRecentEvents, List.mem_filter]
  · intro env m1 m2 h
    refine ⟨?_, ?_, ?_, ?_⟩ <;> simp only [generate_weekly_report, h]

/-- C5 witness: `c5_weekly_window` applied to two concrete snapshots with
the same trailing-7-day slice (the second lacks an old, filtered-out
entry), giving equal weekly entry counts. -/
theorem c5_witness :
    (generate_weekly_report env0 (eventsOnly [dayEvent 5, dayEvent 1])).entries_this_week =
      (generate_weekly_report env0 (eventsOnly [dayEvent 5])).entries_this_week :=
  (c5_weekly_window.2 env0 (eventsOnly [dayEvent 5, dayEvent 1])
    (eventsOnly [dayEvent 5]) (by decide)).1

/-- C5 counterexample: with today = 10 an event dated day 3 — exactly
7 days before today — is counted, whereas the claim's exclusive boundary
would leave the week empty. -/
theorem c5_counterexample :
    (generate_weekly_report env0 (eventsOnly [dayEvent 3])).entries_this_week = 1 ∧
    (1 : Nat) ≠ 0 := ⟨rfl, by decide⟩

/-- Sums over `List.range` coincide with `Finset.range` sums. -/
theorem list_range_map_sum (n : Nat) (f : Nat → ℚ) :
    ((List.range n).map f).sum = ∑ i ∈ Finset.range n, f i := by
  induction n with
  | zero => simp
  | succ n ih =>
    rw [List.range_succ, List.map_append, List.sum_append, Finset.sum_range_succ, ih]
    simp

/-- Summing `values[i]` over all indices gives the list sum. -/
theorem sum_getD_range (l : List ℚ) :
    ∑ i ∈ Finset.range l.length, l.getD i 0 = l.sum := by
  induction l with
  | nil => simp
  | cons x xs ih =>
    rw [List.length_cons, Finset.sum_range_succ']
    simp only [List.getD_cons_succ, List.getD_cons_zero, ih, List.sum_cons]
    ring

/-- Spec-side definition, written from the spec's words for comparison with
the code's closed form: the textbook ordinary least-squares slope of the
values against indices `0..n-1`, as centred covariance over centred
variance. -/
def olsSlopeSpec (values : List ℚ) : ℚ :=
  let n : ℚ := (values.length : ℚ)
  let xbar := (∑ i ∈ Finset.range values.length, (i : ℚ)) / n
  let ybar := (∑ i ∈ Finset.range values.length, values.getD i 0) / n
  (∑ i ∈ Finset.range values.length, ((i : ℚ) - xbar) * (values.getD i 0 - ybar)) /
    (∑ i ∈ Finset.range values.length, ((i : ℚ) - xbar) ^ 2)

/-- For at least two points the code's closed-form slope
`(n·Σxy − Σx·Σy) / (n·Σx² − (Σx)²)` is the ordinary least-squares slope. -/
theorem code_slope_eq_ols (values : List ℚ) (h : 2 ≤ values.length) :
    ((values.length : ℚ) * sumXY values - sumX values.length * sumY values) /
      trendDenom values.length = olsSlopeSpec values := by
  have hn : ((values.length : ℚ)) ≠ 0 := by
    have : (0 : ℚ) < (values.length : ℚ) := by exact_mod_cast Nat.lt_of_lt_of_le (by norm_num) h
    exact ne_of_gt this
  have exX : sumX values.length = ∑ i ∈ Finset.range values.length, (i : ℚ) := by
    rw [sumX]; exact list_range_map_sum values.length _
  have exX2 : sumX2 values.length =
      ∑ i ∈ Finset.range values.length, (i : ℚ) * (i : ℚ) := by
    rw [sumX2]; exact list_range_map_sum values.length _
  have exXY : sumXY values =
      ∑ i ∈ Finset.range values.length, (i : ℚ) * values.getD i 0 := by
    rw [sumXY]; exact list_range_map_sum values.length _
  have exY : sumY values = ∑ i ∈ Finset.range values.length, values.getD i 0 := by
    rw [sumY]; exact (sum_getD_range values).symm
  rw [trendDenom, exX, exX2, exXY, exY, olsSlopeSpec]
  set n := values.length with hn_def
  set Sx := ∑ i ∈ Finset.range n, (i : ℚ) with hSx
  set Sy := ∑ i ∈ Finset.range n, values.getD i 0 with hSy
  set Sxy := ∑ i ∈ Finset.range n, (i : ℚ) * values.getD i 0 with hSxy
  set Sx2 := ∑ i ∈ Finset.range n, (i : ℚ) * (i : ℚ) with hSx2
  have hnum : ∑ i ∈ Finset.range n, (((i : ℚ) - Sx / n) * (values.getD i 0 - Sy / n)) =
      Sxy - Sx * Sy / n := by
    have expand : ∀ i ∈ Finset.range n,
        ((i : ℚ) - Sx / n) * (values.getD i 0 - Sy / n) =
          (i : ℚ) * values.getD i 0 - (Sy / n) * (i : ℚ) -
            (Sx / n) * values.getD i 0 + (Sx / n) * (Sy / n) := by
      intro i _; ring
    rw [Finset.sum_congr rfl expand]
    rw [Finset.sum_add_distrib, Finset.sum_sub_distrib, Finset.sum_sub_distrib,
      ← Finset.mul_sum, ← Finset.mul_sum, Finset.sum_const, Finset.card_range,
      nsmul_eq_mul, ← hSxy, ← hSx, ← hSy]
    field_simp
    ring
  have hden : ∑ i ∈ Finset.range n, ((i : ℚ) - Sx / n) ^ 2 =
      Sx2 - Sx * Sx / n := by
    have expand : ∀ i ∈ Finset.range n,
        ((i : ℚ) - Sx / n) ^ 2 =
          (i : ℚ) * (i : ℚ) - (2 * (Sx / n)) * (i : ℚ) + (Sx / n) * (Sx / n) := by
      intro i _; ring
    rw [Finset.sum_congr rfl expand]
    rw [Finset.sum_add_distrib, Finset.sum_sub_distrib, ← Finset.mul_sum,
      Finset.sum_const, Finset.card_range, nsmul_eq_mul, ← hSx2, ← hSx]
    field_simp
    ring
  rw [hnum, hden]
  have e1 : (n : ℚ) * Sxy - Sx * Sy = (n : ℚ) * (Sxy - Sx * Sy / n) := by
    field_simp; ring
  have e2 : (n : ℚ) * Sx2 - Sx * Sx = (n : ℚ) * (Sx2 - Sx * Sx / n) := by
    field_simp; ring
  rw [e1, e2, mul_div_mul_left _ _ hn]

/-- C6: `_calculate_trend` returns "insufficient_data" below 2 points and
otherwise classifies the ordinary least-squares slope of the values
against indices 0..n-1 with thresholds ±0.1; the four stated examples
evaluate as claimed. -/
theorem c6_trend_classification :
    (∀ values : List ℚ,
      calculate_trend values =
        if values.length < 2 then "insufficient_data"
        else if olsSlopeSpec values > 1 / 10 then "improving"
        else if olsSlopeSpec values < -(1 / 10) then "declining"
        else "stable") ∧
    calculate_trend [1, 2, 3, 4, 5] = "improving" ∧
    calculate_trend [5, 4, 3, 2, 1] = "declining" ∧
    calculate_trend [3, 3, 3, 3] = "stable" ∧
    calculate_trend [1] = "insufficient_data" := by
  refine ⟨fun values => ?_, ?_, ?_, ?_, rfl⟩
  · by_cases h : values.length < 2
    · simp [calculate_trend, h]
    · simp only [calculate_trend, if_neg h]
      rw [code_slope_eq_ols values (by omega)]
  · norm_num [calculate_trend, sumXY, sumX, sumX2, sumY, trendDenom,
      show List.range 5 = [0, 1, 2, 3, 4] from rfl]
  · norm_num [calculate_trend, sumXY, sumX, sumX2, sumY, trendDenom,
      show List.range 5 = [0, 1, 2, 3, 4] from rfl]
  · norm_num [calculate_trend, sumXY, sumX, sumX2, sumY, trendDenom,
      show List.range 4 = [0, 1, 2, 3] from rfl]

/-- The executable substring test agrees with list-infix containment. -/
theorem containsSub_iff (n h : List Char) : containsSub n h = true ↔ n <:+: h := by
  induction h with
  | nil => simp [containsSub, List.isEmpty_iff]
  | cons c rest ih =>
    rw [containsSub]
    simp [List.isPrefixOf_iff_prefix, ih, List.infix_cons_iff]

/-- Eight unremarkable journal entries and two achievement entries. -/
def exampleTen : List Event :=
  [mkEvent "a quiet day", mkEvent "read a book", mkEvent "watched the rain",
   mkEvent "made some tea", mkEvent "walked home", mkEvent "called a friend",
   mkEvent "cooked dinner", mkEvent "slept early",
   mkEvent "achieved a milestone", mkEvent "completed the report"]

/-- C7: an event is an achievement exactly when its lower-cased entry
contains an achievement keyword as a substring, the achievement rate is
`achievements / max(1, total) * 100`, the ten-event example with exactly
two achievement entries rates 20, and the empty journal rates 0. -/
theorem c7_achievement_rate :
    (∀ (env : PyEnv) (memory : Memory),
      (track_achievements env memory).achievement_rate =
        ((memory.life_events.countP isAchievement : ℚ) /
          ((max memory.life_events.length 1 : Nat) : ℚ)) * 100) ∧
    (∀ e : Event, isAchievement e = true ↔
      ∃ w ∈ achievement_words, w.data <:+: pyLower e.entry) ∧
    (track_achievements env0 (eventsOnly exampleTen)).achievement_rate = 20 ∧
    (track_achievements env0 (eventsOnly [])).achievement_rate = 0 := by
  have hrate : ∀ (env : PyEnv) (memory : Memory),
      (track_achievements env memory).achievement_rate =
        ((memory.life_events.countP isAchievement : ℚ) /
          ((max memory.life_events.length 1 : Nat) : ℚ)) * 100 := by
    intro env memory
    simp [track_achievements, List.countP_eq_length_filter]
  refine ⟨hrate, ?_, ?_, ?_⟩
  · intro e
    simp [isAchievement, anyWord, hasWord, List.any_eq_true, containsSub_iff]
  · rw [hrate]
    norm_num [show (eventsOnly exampleTen).life_events.countP isAchievement = 2 from rfl,
      show (eventsOnly exampleTen).life_events.length = 10 from rfl]
  · rw [hrate]
    norm_num [show (eventsOnly ([] : List Event)).life_events = [] from rfl]

/-- Counts of two mutually exclusive predicates never exceed the length. -/
theorem countP_disjoint_le_length (l : List Goal) (p q : Goal → Bool)
    (hpq : ∀ x, ¬(p x = true ∧ q x = true)) :
    l.countP p + l.countP q ≤ l.length := by
  induction l with
  | nil => simp
  | cons x xs ih =>
    rw [List.countP_cons, List.countP_cons, List.length_cons]
    rcases Bool.eq_false_or_eq_true (p x) with hp | hp
    · rcases Bool.eq_false_or_eq_true (q x) with hq | hq
      · exact absurd ⟨hp, hq⟩ (hpq x)
      · simp only [hp, hq, Bool.false_eq_true, if_false, if_true]
        omega
    · rcases Bool.eq_false_or_eq_true (q x) with hq | hq
      · simp only [hp, hq, Bool.false_eq_true, if_false, if_true]
        omega
      · simp only [hp, hq, Bool.false_eq_true, if_false]
        omega

/-- A completed goal for the C8 witness. -/
def goalDone : Goal :=
  { id := 1, goal := "ship the feature", created_date := some 0,
    completed_date := some 3, target_date := none, status := "completed",
    progress := 0 }

/-- C8: the completion rate is `completed / total * 100` with goals of
unknown status counting toward the total but neither the completed nor the
active tally; it is 0 for no goals, always within [0, 100], and 100 when
every goal of a nonempty list is completed. -/
theorem c8_goal_completion_rate (today : Int) (goals : List Goal) :
    (goals = [] → analyze_goal_progress today goals =
      GoalProgressResult.message "No goals found for analysis") ∧
    completionRate [] = 0 ∧
    (∀ s, analyze_goal_progress today goals = GoalProgressResult.stats s →
      s.completion_rate = completionRate goals ∧
      s.completed_goals = goals.countP (fun g => g.status == "completed") ∧
      s.active_goals = goals.countP (fun g => g.status == "active") ∧
      s.total_goals = goals.length) ∧
    goals.countP (fun g => g.status == "completed") +
        goals.countP (fun g => g.status == "active") ≤ goals.length ∧
    0 ≤ completionRate goals ∧ completionRate goals ≤ 100 ∧
    (goals ≠ [] → (∀ g ∈ goals, g.status = "completed") →
      completionRate goals = 100) := by
  refine ⟨?_, rfl, ?_, ?_, ?_, ?_, ?_⟩
  · intro h; subst h; rfl
  · intro s hs
    by_cases hg : goals.isEmpty
    · rw [analyze_goal_progress, if_pos hg] at hs
      exact absurd hs (by simp)
    · rw [analyze_goal_progress, if_neg hg] at hs
      have := (GoalProgressResult.stats.injEq _ _).mp hs.symm
      subst this
      exact ⟨rfl, (List.countP_eq_length_filter _ _).symm ▸ rfl,
        (List.countP_eq_length_filter _ _).symm ▸ rfl, rfl⟩
  · refine countP_disjoint_le_length goals _ _ (fun x => ?_)
    rintro ⟨h1, h2⟩
    have e1 : x.status = "completed" := by simpa using h1
    have e2 : x.status = "active" := by simpa using h2
    rw [e1] at e2
    exact absurd e2 (by decide)
  · rw [completionRate]
    split_ifs
    · exact le_refl 0
    · positivity
  · rw [completionRate]
    split_ifs with h
    · norm_num
    · have hne : goals ≠ [] := by
        intro hnil; subst hnil; exact h rfl
      have hn : (0 : ℚ) < (goals.length : ℚ) := by
        exact_mod_cast List.length_pos.mpr hne
      have hc : (((goals.filter (fun g => g.status == "completed")).length : ℚ)) ≤
          (goals.length : ℚ) := by exact_mod_cast List.length_filter_le _ _
      rw [div_mul_eq_mul_div, div_le_iff₀ hn]
      nlinarith
  · intro hne hall
    rw [completionRate, if_neg (by simpa [List.isEmpty_iff] using hne)]
    rw [List.filter_eq_self.mpr (fun a ha => by simp [hall a ha])]
    rw [div_self (Nat.cast_ne_zero.mpr
      (Nat.pos_iff_ne_zero.mp (List.length_pos.mpr hne)))]
    norm_num

/-- C8 witness: `c8_goal_completion_rate` applied to the one-goal journal
whose only goal is completed, giving rate 100. -/
theorem c8_witness : completionRate [goalDone] = 100 :=
  (c8_goal_completion_rate 0 [goalDone]).2.2.2.2.2.2 (by decide) (by decide)

/-- `sum(range(n)) = n(n-1)/2`. -/
theorem sumX_closed (n : Nat) : sumX n = (n : ℚ) * ((n : ℚ) - 1) / 2 := by
  induction n with
  | zero => simp [sumX]
  | succ n ih =>
    have step : sumX (n + 1) = sumX n + (n : ℚ) := by
      rw [sumX, sumX, List.range_succ, List.map_append, List.sum_append]
      simp
    rw [step, ih]
    push_cast
    ring

/-- `sum(i*i for i in range(n)) = n(n-1)(2n-1)/6`. -/
theorem sumX2_closed (n : Nat) :
    sumX2 n = (n : ℚ) * ((n : ℚ) - 1) * (2 * (n : ℚ) - 1) / 6 := by
  induction n with
  | zero => simp [sumX2]
  | succ n ih =>
    have step : sumX2 (n + 1) = sumX2 n + (n : ℚ) * (n : ℚ) := by
      rw [sumX2, sumX2, List.range_succ, List.map_append, List.sum_append]
      simp
    rw [step, ih]
    push_cast
    ring

/-- One `defaultdict(list)` append keeps every accumulated list nonempty. -/
theorem groupAppend_nonempty {κ α : Type} [BEq κ]
    (acc : List (κ × List α)) (k : κ) (v : α)
    (h : ∀ p ∈ acc, p.2 ≠ []) :
    ∀ p ∈ groupAppend acc k v, p.2 ≠ [] := by
  intro p hp
  rw [groupAppend] at hp
  by_cases hc : acc.any (fun q => q.1 == k)
  · rw [if_pos hc] at hp
    obtain ⟨q, hq, rfl⟩ := List.mem_map.mp hp
    rcases Bool.eq_false_or_eq_true (q.1 == k) with hk | hk
    · simp only [hk, if_true]
      simp
    · simp only [hk, Bool.false_eq_true, if_false]
      exact h q hq
  · rw [if_neg hc] at hp
    rcases List.mem_append.mp hp with h1 | h1
    · exact h p h1
    · have : p = (k, [v]) := by simpa using h1
      subst this
      simp

/-- Every score group accumulated by `_analyze_mood_trends` is nonempty,
so each `statistics.mean(scores)` on `analytics.py:72` divides by a
positive count. -/
theorem weeklyMood_groups_nonempty (env : PyEnv) (events : List Event) :
    ∀ p ∈ weeklyMood env events, p.2 ≠ [] := by
  rw [weeklyMood]
  suffices h : ∀ (l : List Event) (acc : List (String × List Int)),
      (∀ p ∈ acc, p.2 ≠ []) →
      ∀ p ∈ l.foldl
        (fun acc e => groupAppend acc (env.weekKey e.date) (moodScore e)) acc,
        p.2 ≠ [] by
    exact h events [] (by simp)
  intro l
  induction l with
  | nil =>
    intro acc hacc
    simpa using hacc
  | cons e es ih =>
    intro acc hacc
    rw [List.foldl_cons]
    exact ih _ (groupAppend_nonempty _ _ _ hacc)

/-- The gap list of `_calculate_consistency_score` and
`_calculate_entry_frequency` has one element fewer than the event list. -/
theorem dateGaps_length (events : List Event) :
    (dateGaps events).length = events.length - 1 := by
  have hs : (sortedDates events).length = events.length := by
    rw [sortedDates, List.length_insertionSort, List.length_map]
  rw [dateGaps, List.length_zipWith, List.length_tail, hs]
  exact min_eq_left (Nat.sub_le _ _)

/-- C9: every division performed while assembling either report has a
positive divisor on its branch.  The unguarded least-squares denominator
`trendDenom n = n²(n−1)(n+1)/12` is positive under the `n ≥ 2` branch
(`analytics.py:242`); `_calculate_weekly_average` divides by
`max(weeks, 1) ≥ 1` (`analytics.py:212`); `_calculate_learning_frequency`
divides by `min(30, len) ≥ 1` on its nonempty branch (`analytics.py:348`).
`statistics.mean` divides by the positive length of a nonempty list and
its division truly cancels — covering the weekly mood groups
(`analytics.py:72`, nonempty by construction), the completion times under
their own emptiness guard (`analytics.py:104`), and the gap lists, whose
length `len − 1` is positive under both the `len ≥ 7` guard
(`analytics.py:224`) and the `len(dates) > 1` guard (`analytics.py:301`).
`statistics.stdev` divides by `len − 1 > 0` under its `len > 1` guard
(`analytics.py:78`).  The completion rate divides by the positive goal
count on the nonempty-goals branch (`analytics.py:103`), the growth ratio
and the achievement rate divide by `max(·, 1) ≥ 1`
(`analytics.py:155` and `analytics.py:395`), and the resilience ratio
divides by a challenge count its branch guarantees nonzero
(`analytics.py:336`). -/
theorem c9_division_guards :
    (∀ n : Nat, 2 ≤ n → 0 < trendDenom n) ∧
    (∀ a b : Int, 1 ≤ weeklyAvgDenom a b) ∧
    (∀ events : List Event, events ≠ [] → 0 < learningDenom events) ∧
    (∀ l : List ℚ, l ≠ [] →
      0 < (l.length : ℚ) ∧ listMean l * (l.length : ℚ) = l.sum) ∧
    (∀ l : List ℚ, 1 < l.length →
      0 < (l.length : ℚ) - 1 ∧
        listSampleVariance l * ((l.length : ℚ) - 1) =
          (l.map (fun x => (x - listMean l) ^ 2)).sum) ∧
    (∀ (env : PyEnv) (events : List Event),
      ∀ p ∈ weeklyMood env events, p.2 ≠ []) ∧
    (∀ events : List Event, 1 < events.length → 0 < (dateGaps events).length) ∧
    (∀ events : List Event, 7 ≤ events.length → 0 < (dateGaps events).length) ∧
    (∀ goals : List Goal, goals ≠ [] → 0 < ((goals.length : ℚ))) ∧
    (∀ n : Nat, 0 < ((max n 1 : Nat) : ℚ)) ∧
    (∀ n : Nat, n ≠ 0 → 0 < ((n : ℚ))) := by
  refine ⟨fun n hn => ?_, fun a b => le_max_right _ _, fun events he => ?_,
    fun l hl => ?_, fun l hl => ?_, weeklyMood_groups_nonempty,
    fun events hl => ?_, fun events hl => ?_, fun goals hg => ?_,
    fun n => ?_, fun n hn => ?_⟩
  · have key : trendDenom n = (n : ℚ) ^ 2 * ((n : ℚ) - 1) * ((n : ℚ) + 1) / 12 := by
      rw [trendDenom, sumX_closed, sumX2_closed]
      ring
    have h2 : (2 : ℚ) ≤ (n : ℚ) := by exact_mod_cast hn
    rw [key]
    apply div_pos _ (by norm_num)
    apply mul_pos (mul_pos (by positivity) (by linarith)) (by linarith)
  · have hp : 0 < events.length := List.length_pos.mpr he
    have : 0 < min 30 events.length := lt_min (by norm_num) hp
    rw [learningDenom]
    exact_mod_cast this
  · have hlen : (0 : ℚ) < (l.length : ℚ) := by
      exact_mod_cast List.length_pos.mpr hl
    refine ⟨hlen, ?_⟩
    rw [listMean]
    exact div_mul_cancel₀ _ (ne_of_gt hlen)
  · have hlen : (1 : ℚ) < (l.length : ℚ) := by exact_mod_cast hl
    have hpos : (0 : ℚ) < (l.length : ℚ) - 1 := by linarith
    refine ⟨hpos, ?_⟩
    rw [listSampleVariance]
    exact div_mul_cancel₀ _ (ne_of_gt hpos)
  · rw [dateGaps_length]
    omega
  · rw [dateGaps_length]
    omega
  · exact_mod_cast List.length_pos.mpr hg
  · have : 0 < max n 1 := lt_of_lt_of_le zero_lt_one (le_max_right n 1)
    exact_mod_cast this
  · exact_mod_cast Nat.pos_of_ne_zero hn

/-- C9 witness: each guarded part of `c9_division_guards` applied at a
concrete input: two trend points, a date pair, a one-entry journal, a
singleton mean, a two-value variance divisor, a one-event mood group, a
two-event and a seven-event gap list, a one-goal list, and the counts
4 and 3. -/
theorem c9_witness :
    0 < trendDenom 2 ∧
    1 ≤ weeklyAvgDenom 0 3 ∧
    0 < learningDenom [mkEvent "hello"] ∧
    listMean [(3 : ℚ)] * (([(3 : ℚ)].length : ℚ)) = [(3 : ℚ)].sum ∧
    0 < (([(1 : ℚ), (2 : ℚ)].length : ℚ)) - 1 ∧
    (("w", ([0] : List Int)) : String × List Int).2 ≠ [] ∧
    0 < (dateGaps [dayEvent 0, dayEvent 2]).length ∧
    0 < (dateGaps gapOneWeek).length ∧
    0 < (([goalDone].length : ℚ)) ∧
    0 < ((max 4 1 : Nat) : ℚ) ∧
    0 < ((3 : Nat) : ℚ) := by
  obtain ⟨h1, h2, h3, h4, h5, h6, h7, h8, h9, h10, h11⟩ := c9_division_guards
  exact ⟨h1 2 (by norm_num), h2 0 3, h3 [mkEvent "hello"] (by decide),
    (h4 [(3 : ℚ)] (by decide)).2, (h5 [(1 : ℚ), (2 : ℚ)] (by decide)).1,
    h6 env0 [mkEvent "hello"] ("w", ([0] : List Int)) (by decide),
    h7 [dayEvent 0, dayEvent 2] (by decide), h8 gapOneWeek (by decide),
    h9 [goalDone] (by decide), h10 4, h11 3 (by decide)⟩

/-- After the repair loop, every key that owns a default entry is present. -/
theorem fill_contains (kvs : List (String × Json)) (k : String) (v : Json)
    (hmem : (k, v) ∈ default_structure) :
    containsKey (fillDefaults kvs) k = true := by
  rw [containsKey, fillDefaults, List.any_append, Bool.or_eq_true]
  by_cases h : kvs.any (fun p => p.1 == k)
  · exact Or.inl h
  · right
    rw [List.any_eq_true]
    refine ⟨(k, v), List.mem_filter.mpr ⟨hmem, ?_⟩, by simp⟩
    simp [containsKey, h]

/-- C10 (amended): a missing file, an `IOError`, or a `JSONDecodeError`
each yield exactly the default structure; when the parsed document is a
JSON object the repair loop returns it with every one of the five
top-level keys present (missing ones filled from the default); but when
the document parses to a non-object — `[]` for instance — the repair loop
raises an uncaught `TypeError` instead of returning a mapping. -/
theorem c10_load_memory :
    load_memory FileState.missing = Except.ok (Json.obj default_structure) ∧
    load_memory FileState.ioError = Except.ok (Json.obj default_structure) ∧
    load_memory FileState.parseError = Except.ok (Json.obj default_structure) ∧
    (∀ kvs : List (String × Json),
      load_memory (FileState.content (Json.obj kvs)) =
        Except.ok (Json.obj (fillDefaults kvs)) ∧
      requiredKeys.all (fun k => containsKey (fillDefaults kvs) k) = true) := by
  refine ⟨rfl, rfl, rfl, fun kvs => ⟨rfl, ?_⟩⟩
  rw [requiredKeys]
  simp only [List.all_cons, List.all_nil, Bool.and_eq_true]
  refine ⟨?_, ?_, ?_, ?_, ?_, trivial⟩
  · exact fill_contains kvs "life_events" (Json.arr []) (by simp [default_structure])
  · exact fill_contains kvs "goals" (Json.arr []) (by simp [default_structure])
  · exact fill_contains kvs "warnings" (Json.arr []) (by simp [default_structure])
  · exact fill_contains kvs "patterns" (Json.obj []) (by simp [default_structure])
  · exact fill_contains kvs "user_profile"
      (Json.obj [("name", Json.str ""), ("preferences", Json.obj []),
        ("coaching_style", Json.str "supportive")])
      (by simp [default_structure])

/-- C10 counterexample: a readable file whose JSON document is the empty
array is parsed fine, but the repair loop's `data[key] = ...` on a list
raises `TypeError`, so `load_memory` propagates an exception instead of
returning a mapping with the five keys. -/
theorem c10_counterexample :
    load_memory (FileState.content (Json.arr [])) =
      Except.error PyErr.typeError := rfl
